import Mathlib

/-!
Verification of the `logger` Go package (Ink-33/logger, file `logger.go`)
against its natural-language specification.

Shallow embedding conventions:
- Go strings and `[]byte` values are modelled as `List Char` (the texts
  involved are plain ASCII, where bytes and characters coincide).
- `time.Time` is modelled as an integer nanosecond timestamp; the wall
  clock readings (`time.Now()`, and the date/time text that `log.Logger`
  prints) are inputs to the emission functions.
- The Go map `logChannels : map[string]chan LogEntry` is modelled as an
  association list from names to channel states.
- A buffered Go channel with no consumer attached is modelled as a bounded
  FIFO queue: a non-blocking send succeeds iff the buffer is not full, and
  a non-blocking receive succeeds iff the buffer is not empty.
- An `io.Writer` is modelled as a log of received writes together with a
  behaviour flag saying whether `Write` succeeds; `io.MultiWriter` is
  modelled from its documented standard-library implementation (sequential
  writes, stopping at the first error or short write).
-/

namespace GoLogger

/-- The newline character, byte 10 (Go literal `\n`). -/
def nlChar : Char := Char.ofNat 10

/-- The space character, byte 32. -/
def spChar : Char := Char.ofNat 32

/-- The percent character, byte 37 (the `fmt` directive marker). -/
def pctChar : Char := Char.ofNat 37

/-- The opening square bracket character, byte 91. -/
def lbChar : Char := Char.ofNat 91

/-- The closing square bracket character, byte 93. -/
def rbChar : Char := Char.ofNat 93

/-- Holds iff the text contains no `fmt` directive marker. `fmt.Sprintf`
with an empty operand list is the identity on such texts, which is the
domain on which we model the `logger.Printf` calls. -/
def percentFree (s : List Char) : Bool := s.all (fun c => c != pctChar)

/-- Level string `LevelDebug = "DEBUG"` (logger.go line 16). -/
def LevelDebug : List Char := "DEBUG".toList

/-- Level string `LevelInfo = "INFO"` (logger.go line 17). -/
def LevelInfo : List Char := "INFO".toList

/-- Level string `LevelWarn = "WARN"` (logger.go line 18). -/
def LevelWarn : List Char := "WARN".toList

/-- Level string `LevelError = "ERROR"` (logger.go line 19). -/
def LevelError : List Char := "ERROR".toList

/-- Level string `LevelFatal = "FATAL"` (logger.go line 20). -/
def LevelFatal : List Char := "FATAL".toList

/-- Embeds the Go struct `LogEntry` (logger.go lines 37-44).
`ProdName` embeds the Go field `Prefix` (the product name at the time of
emission); `StackTrace` embeds the `[]byte` field as text. -/
structure LogEntry where
  Timestamp : Int
  Level : List Char
  Message : List Char
  ProdName : List Char
  StackTrace : List Char
deriving DecidableEq

/-- State of one buffered Go channel of `LogEntry` with no consumer
attached: a bounded FIFO queue. `queue` holds buffered entries, oldest
first; `capacity` is the buffer size fixed at `make`. -/
structure LogChannel where
  capacity : Nat
  queue : List LogEntry
deriving DecidableEq

/-- Non-blocking send (`select { case ch <- entry: ... default: ... }`):
succeeds iff the buffer has room. -/
def chanTrySend (c : LogChannel) (e : LogEntry) : LogChannel × Bool :=
  if c.queue.length < c.capacity then ({ c with queue := c.queue ++ [e] }, true)
  else (c, false)

/-- Non-blocking receive (`select { case <-ch: ... default: ... }`):
succeeds iff the buffer is non-empty, yielding the oldest entry. -/
def chanTryRecv (c : LogChannel) : LogChannel × Option LogEntry :=
  match c.queue with
  | [] => (c, none)
  | x :: rest => ({ c with queue := rest }, some x)

/-- The two diagnostic warnings `broadcastToChannels` can print to stderr
(logger.go lines 182 and 186). -/
inductive OverflowWarning where
  | stillFull (name : String)
  | cannotDrop (name : String)
deriving DecidableEq

/-- Embeds the per-channel body of the loop in `broadcastToChannels`
(logger.go lines 168-189): try a non-blocking send; on a full buffer drop
the oldest entry and retry the send once; report a diagnostic if either
fallback step fails. -/
def broadcastStep (name : String) (c : LogChannel) (e : LogEntry) :
    LogChannel × Option OverflowWarning :=
  match chanTrySend c e with
  | (c1, true) => (c1, none)
  | (_, false) =>
    match chanTryRecv c with
    | (c2, some _) =>
      match chanTrySend c2 e with
      | (c3, true) => (c3, none)
      | (c3, false) => (c3, some (.stillFull name))
    | (_, none) => (c, some (.cannotDrop name))

/-- The channel registry `logChannels` (logger.go line 32), modelled as an
association list from subscription names to channel states. -/
abbrev Registry := List (String × LogChannel)

/-- Go map lookup `logChannels[name]`. -/
def lookupChan : Registry → String → Option LogChannel
  | [], _ => none
  | p :: r, n => if p.1 = n then some p.2 else lookupChan r n

/-- Embeds `broadcastToChannels` (logger.go lines 164-190): applies
`broadcastStep` to every registered channel and collects the diagnostic
warnings. -/
def broadcastToChannels (r : Registry) (e : LogEntry) :
    Registry × List OverflowWarning :=
  match r with
  | [] => ([], [])
  | p :: rest =>
    let res := broadcastStep p.1 p.2 e
    let tailRes := broadcastToChannels rest e
    ((p.1, res.1) :: tailRes.1, res.2.toList ++ tailRes.2)

/-- Broadcasting a list of entries in order, keeping the registry state. -/
def broadcastAll (r : Registry) (es : List LogEntry) : Registry :=
  es.foldl (fun r e => (broadcastToChannels r e).1) r

/-- Embeds the Go struct `LogChannelConfig` (logger.go lines 47-50);
`Timeout` is carried but never read by the code. Field `BufferSize` is a
Go `int`, modelled as `Int`. -/
structure LogChannelConfig where
  BufferSize : Int
  Timeout : Int
deriving DecidableEq

/-- `make(chan LogEntry, size)`: a negative buffer size panics at runtime
(`makechan: size out of range`); otherwise an empty buffered channel of
the given capacity is created. -/
def makeChan (size : Int) : Except String LogChannel :=
  if size < 0 then Except.error "makechan: size out of range"
  else Except.ok { capacity := size.toNat, queue := [] }

/-- Embeds `GetLogChannelWithConfig` (logger.go lines 135-149): return the
existing channel if the name is registered, otherwise make a channel of
exactly `config.BufferSize` and register it. `Except.error` models a Go
runtime panic. -/
def GetLogChannelWithConfig (r : Registry) (name : String)
    (config : LogChannelConfig) : Except String (Registry × LogChannel) :=
  match lookupChan r name with
  | some ch => Except.ok (r, ch)
  | none =>
    match makeChan config.BufferSize with
    | Except.error e => Except.error e
    | Except.ok ch => Except.ok ((name, ch) :: r, ch)

/-- The initial value of the package variable `bufferSize` (logger.go
line 34). -/
def defaultBufferSize : Int := 100

/-- Embeds `SetChannelBufferSize` (logger.go lines 119-124): returns the
new value of the package variable `bufferSize`. -/
def SetChannelBufferSize (size : Int) : Int :=
  if size ≤ 0 then 100 else size

/-- Embeds `GetLogChannel` (logger.go lines 127-132): subscribe with the
current default `bufferSize` and a 100 ms timeout (in nanoseconds). -/
def GetLogChannel (r : Registry) (bufSize : Int) (name : String) :
    Except String (Registry × LogChannel) :=
  GetLogChannelWithConfig r name { BufferSize := bufSize, Timeout := 100000000 }

/-- Embeds `RemoveLogChannel` (logger.go lines 152-160): if the name is
registered, close the channel and delete the mapping; otherwise do
nothing. The returned `Bool` records whether a channel was closed. -/
def RemoveLogChannel (r : Registry) (name : String) : Registry × Bool :=
  match lookupChan r name with
  | some _ => (r.filter (fun p => p.1 != name), true)
  | none => (r, false)

/-- Model of an `io.Writer`: the log of writes it has accepted so far and
a behaviour flag saying whether its `Write` method succeeds. -/
structure GoWriter where
  accepts : Bool
  received : List (List Char)
deriving DecidableEq

/-- One `Write(p)` call on a single writer: an accepting writer takes the
full slice and returns `(len(p), nil)`; a failing one returns an error and
takes nothing. The error text stands for whatever error the writer
returns. -/
def writerWrite (w : GoWriter) (p : List Char) :
    GoWriter × Nat × Option String :=
  if w.accepts then ({ w with received := w.received ++ [p] }, p.length, none)
  else (w, 0, some "write error")

/-- Model of `io.MultiWriter(writers...).Write(p)`, from the documented
standard-library implementation: write to each target in order and stop at
the first error or short write, returning that error; targets after the
failing one are not written for this call. -/
def multiWrite : List GoWriter → List Char → List GoWriter × Nat × Option String
  | [], p => ([], p.length, none)
  | w :: ws, p =>
    match writerWrite w p with
    | (w1, n, some e) => (w1 :: ws, n, some e)
    | (w1, n, none) =>
      if n = p.length then
        let rest := multiWrite ws p
        (w1 :: rest.1, rest.2.1, rest.2.2)
      else (w1 :: ws, n, some "short write")

/-- The package-level mutable state of logger.go (lines 23-35 and 52):
the configured writers, the multi-writer currently installed as the
`log.Logger` output, the `log.Logger` prefix string (`loggerTag`), the
product name, the channel registry, and the default channel buffer size.
The `log.Logger` flags are the constant `Ldate|Ltime|Lmsgprefix`. -/
structure LoggerState where
  productName : List Char
  loggerTag : List Char
  consoleWriter : GoWriter
  customWriter : Option GoWriter
  activeReader : Option GoWriter
  multiWriter : List GoWriter
  logChannels : Registry
  bufferSize : Int
deriving DecidableEq

/-- Embeds `updateMultiWriter` (logger.go lines 193-211): rebuild the
target list as console, then the custom writer if set, then the pipe
writer if a mirror is active, and install it as the logger output. (The
code's single-writer special case installs `writers[0]` directly instead
of wrapping it; both deliver writes to the same one target.) -/
def updateMultiWriter (s : LoggerState) : LoggerState :=
  let writers := [s.consoleWriter]
    ++ (match s.customWriter with | some w => [w] | none => [])
    ++ (match s.activeReader with | some w => [w] | none => [])
  { s with multiWriter := writers }

/-- Embeds `init` (logger.go lines 54-63): console output only, no prefix,
empty channel map, default buffer size 100. -/
def initState (console : GoWriter) : LoggerState :=
  { productName := []
    loggerTag := []
    consoleWriter := console
    customWriter := none
    activeReader := none
    multiWriter := [console]
    logChannels := []
    bufferSize := defaultBufferSize }

/-- Embeds `SetProductName` (logger.go lines 66-69): store the name and
set the `log.Logger` prefix to `"[name] "`. -/
def SetProductName (s : LoggerState) (name : List Char) : LoggerState :=
  { s with
    productName := name
    loggerTag := lbChar :: name ++ [rbChar, spChar] }

/-- Embeds `GetPrefix` (logger.go lines 300-302): returns the product
name. (Renamed from the Go `GetPrefix` for lexical reasons.) -/
def GetProductName (s : LoggerState) : List Char := s.productName

/-- Embeds `SetOutput` (logger.go lines 73-79): install `w` as the custom
writer (`none` models a nil writer) and rebuild the multi-writer. -/
def SetOutput (s : LoggerState) (w : Option GoWriter) : LoggerState :=
  updateMultiWriter { s with customWriter := w }

/-- The error message of `GetReaderCopy` when no custom writer is set
(logger.go line 88). -/
def noWriterMsg : String := "no custom writer set, call SetOutput first"

/-- Embeds `GetReaderCopy` (logger.go lines 83-104): fail if no custom
writer is configured (installing nothing); otherwise close any previous
pipe (its consumer sees end-of-stream), install a fresh pipe writer as the
active reader, rebuild the multi-writer, and return the read side. The
fresh pipe created by `io.Pipe()` is an input `fresh`. -/
def GetReaderCopy (s : LoggerState) (fresh : GoWriter) :
    Except String GoWriter × LoggerState :=
  match s.customWriter with
  | none => (Except.error noWriterMsg, s)
  | some _ =>
    (Except.ok fresh, updateMultiWriter { s with activeReader := some fresh })

/-- Embeds `RemoveReaderCopy` (logger.go lines 107-116): if a pipe is
active, close it, clear it and rebuild the multi-writer; otherwise do
nothing. -/
def RemoveReaderCopy (s : LoggerState) : LoggerState :=
  match s.activeReader with
  | some _ => updateMultiWriter { s with activeReader := none }
  | none => s

/-- Embeds `stripNewline` (logger.go lines 304-309): drop one trailing
newline byte if present. -/
def stripNewline (s : List Char) : List Char :=
  match s.getLast? with
  | some c => if c = nlChar then s.dropLast else s
  | none => s

/-- Model of `log.Logger.Output` with flags `Ldate|Ltime|Lmsgprefix`: the
header is the date text, a space, the time text, a space, then the logger
prefix (`Lmsgprefix` places it directly before the message), followed by
the message body, with a newline appended when the body does not already
end in one. The date and time texts are wall-clock inputs. -/
def logOutput (tag date timeText body : List Char) : List Char :=
  date ++ [spChar] ++ timeText ++ [spChar] ++ tag ++ body
    ++ (if body.getLast? = some nlChar then [] else [nlChar])

/-- Per-emission inputs read from the environment: `time.Now()` (as
nanoseconds), the date and time texts the `log.Logger` header prints for
this instant, the rendered message `fmt.Sprintf(format, args...)`
(rendering is the spec's pure helper), and the `debug.Stack()` capture. -/
structure EmitInput where
  now : Int
  date : List Char
  timeText : List Char
  msg : List Char
  stack : List Char
deriving DecidableEq

/-- Result of one emission: the `LogEntry` handed to the broadcast, and
the bytes written through the multi-writer. The `logger.Printf` call
re-scans its argument for directives; the written-bytes theorems restrict
to `percentFree` texts, on which `fmt.Sprintf` with no operands is the
identity. -/
structure EmitResult where
  entry : LogEntry
  written : List Char
deriving DecidableEq

/-- Shared emission shape (logger.go lines 214-297): build the entry,
broadcast it to all channels, and form the text written through the
logger: `"[LEVEL] " ++ stripNewline(message) ++ "\n"` plus, for ERROR and
FATAL only, the raw stack text. -/
def emit (s : LoggerState) (level : List Char) (entryStack : List Char)
    (writtenStack : List Char) (i : EmitInput) : LoggerState × EmitResult :=
  let entry : LogEntry :=
    { Timestamp := i.now
      Level := level
      Message := i.msg
      ProdName := GetProductName s
      StackTrace := entryStack }
  let b := broadcastToChannels s.logChannels entry
  ({ s with logChannels := b.1 },
   { entry := entry
     written := logOutput s.loggerTag i.date i.timeText
       ([lbChar] ++ level ++ [rbChar, spChar] ++ stripNewline i.msg
         ++ [nlChar] ++ writtenStack) })

/-- Embeds `Debug` (logger.go lines 214-228): stack in the entry, no
stack in the written text. -/
def Debug (s : LoggerState) (i : EmitInput) : LoggerState × EmitResult :=
  emit s LevelDebug i.stack [] i

/-- Embeds `Info` (logger.go lines 231-245): empty stack in the entry, no
stack in the written text. -/
def Info (s : LoggerState) (i : EmitInput) : LoggerState × EmitResult :=
  emit s LevelInfo [] [] i

/-- Embeds `Warn` (logger.go lines 248-262): stack in the entry, no stack
in the written text. -/
def Warn (s : LoggerState) (i : EmitInput) : LoggerState × EmitResult :=
  emit s LevelWarn i.stack [] i

/-- Embeds `Error` (logger.go lines 265-279): stack in the entry and
appended to the written text. -/
def Error (s : LoggerState) (i : EmitInput) : LoggerState × EmitResult :=
  emit s LevelError i.stack i.stack i

/-- Embeds `Fatal` (logger.go lines 282-297): like `Error` with level
FATAL; the process then exits with code 1, modelled by `FatalExitCode`. -/
def Fatal (s : LoggerState) (i : EmitInput) : LoggerState × EmitResult :=
  emit s LevelFatal i.stack i.stack i

/-- The exit code passed to `os.Exit` after a FATAL emission. -/
def FatalExitCode : Nat := 1

/-- One call to the package API, for reasoning about call sequences.
`getReaderCopy` carries the fresh pipe `io.Pipe()` would create; the
emission constructors carry the per-emission environment inputs. `Fatal`
is absent because it terminates the process. -/
inductive Op where
  | setProductName (n : List Char)
  | setOutput (w : Option GoWriter)
  | getReaderCopy (fresh : GoWriter)
  | removeReaderCopy
  | setChannelBufferSize (n : Int)
  | removeLogChannel (name : String)
  | emitDebug (i : EmitInput)
  | emitInfo (i : EmitInput)
  | emitWarn (i : EmitInput)
  | emitError (i : EmitInput)
deriving DecidableEq

/-- Effect of one API call on the package state. -/
def applyOp (s : LoggerState) : Op → LoggerState
  | .setProductName n => SetProductName s n
  | .setOutput w => SetOutput s w
  | .getReaderCopy fresh => (GetReaderCopy s fresh).2
  | .removeReaderCopy => RemoveReaderCopy s
  | .setChannelBufferSize n => { s with bufferSize := SetChannelBufferSize n }
  | .removeLogChannel name => { s with logChannels := (RemoveLogChannel s.logChannels name).1 }
  | .emitDebug i => (Debug s i).1
  | .emitInfo i => (Info s i).1
  | .emitWarn i => (Warn s i).1
  | .emitError i => (Error s i).1

/-- Run a sequence of API calls. -/
def run (s : LoggerState) : List Op → LoggerState
  | [] => s
  | o :: ops => run (applyOp s o) ops

/-- Holds iff the call is a `SetProductName`. -/
def isSetProductName : Op → Bool
  | .setProductName _ => true
  | _ => false

/-- Holds iff the call is a `SetOutput` with a non-nil writer. -/
def setsCustom : Op → Bool
  | .setOutput (some _) => true
  | _ => false

/-- The full text line an emission at the given level writes (before any
appended stack text): header, logger prefix, `"[LEVEL] "`, the message
with one trailing newline stripped, and a newline. -/
def lineOut (s : LoggerState) (i : EmitInput) (level : List Char) : List Char :=
  logOutput s.loggerTag i.date i.timeText
    ([lbChar] ++ level ++ [rbChar, spChar] ++ stripNewline i.msg ++ [nlChar])

/-- Folding `broadcastStep` over a list of entries on one channel; this is
what a single registered channel undergoes across successive emissions. -/
def chanFold (name : String) (c : LogChannel) : List LogEntry → LogChannel
  | [] => c
  | e :: es => chanFold name (broadcastStep name c e).1 es

/-- A concrete always-accepting writer, used to instantiate theorems. -/
def sampleWriter : GoWriter := { accepts := true, received := [] }

/-- A concrete emission environment, used to instantiate theorems: a
fixed instant, a short message and a non-empty `debug.Stack()` text. -/
def sampleInput : EmitInput :=
  { now := 0
    date := "2024/01/01".toList
    timeText := "12:00:00".toList
    msg := "hi".toList
    stack := "goroutine 1:".toList ++ [nlChar] }

/-- On a channel whose buffer is not over capacity, one broadcast either
appends (room left) or drops the oldest entry and appends (buffer full). -/
theorem broadcastStep_fst (name : String) (K : Nat) (q : List LogEntry)
    (e : LogEntry) (hK : 1 ≤ K) (hq : q.length ≤ K) :
    (broadcastStep name ⟨K, q⟩ e).1 =
      ⟨K, if q.length < K then q ++ [e] else q.tail ++ [e]⟩ := by
  by_cases h : q.length < K
  · simp [broadcastStep, chanTrySend, h]
  · cases q with
    | nil =>
      exfalso
      simp at h
      omega
    | cons x rest =>
      have h2 : ¬ rest.length + 1 < K := by simpa using h
      have hr : rest.length < K := by
        simp at hq
        omega
      simp [broadcastStep, chanTrySend, chanTryRecv, h2, hr]

/-- Closed form of repeated broadcasts into one channel: starting from a
buffer holding at most `K` entries, the buffer always holds the most
recent `K` of the entries seen so far, in order. -/
theorem chanFold_queue (name : String) (K : Nat) (hK : 1 ≤ K) :
    ∀ (es : List LogEntry) (q : List LogEntry), q.length ≤ K →
      chanFold name ⟨K, q⟩ es = ⟨K, (q ++ es).drop ((q ++ es).length - K)⟩ := by
  intro es
  induction es with
  | nil =>
    intro q hq
    have h0 : q.length - K = 0 := by omega
    simp [chanFold, h0]
  | cons e es ih =>
    intro q hq
    rw [chanFold, broadcastStep_fst name K q e hK hq]
    by_cases h : q.length < K
    · rw [if_pos h]
      have : (q ++ [e]).length ≤ K := by simp; omega
      rw [ih (q ++ [e]) this]
      simp
    · rw [if_neg h]
      cases q with
      | nil =>
        exfalso
        simp at h
        omega
      | cons x rest =>
        have hlr : rest.length + 1 = K := by
          have := not_lt.mp h
          simp at hq this
          omega
        have hle : (rest ++ [e]).length ≤ K := by simp; omega
        rw [List.tail_cons, ih (rest ++ [e]) hle]
        have harr : (rest ++ [e]) ++ es = rest ++ e :: es := by simp
        have hd1 : ((rest ++ [e]) ++ es).length - K = es.length := by
          simp; omega
        have hd2 : ((x :: rest) ++ e :: es).length - K = es.length + 1 := by
          simp; omega
        rw [hd1, hd2, harr]
        simp [List.drop_succ_cons]

/-- Broadcasting commutes with registry lookup: after one broadcast, the
channel registered under a name is that name's channel stepped once. -/
theorem lookupChan_broadcast (r : Registry) (e : LogEntry) (n : String) :
    lookupChan (broadcastToChannels r e).1 n =
      (lookupChan r n).map (fun c => (broadcastStep n c e).1) := by
  induction r with
  | nil => simp [broadcastToChannels, lookupChan]
  | cons p rest ih =>
    by_cases h : p.1 = n
    · subst h
      simp [broadcastToChannels, lookupChan]
    · simp [broadcastToChannels, lookupChan, h, ih]

/-- Broadcasting a whole list commutes with registry lookup. -/
theorem lookupChan_broadcastAll (es : List LogEntry) :
    ∀ (r : Registry) (n : String),
      lookupChan (broadcastAll r es) n =
        (lookupChan r n).map (fun c => chanFold n c es) := by
  induction es with
  | nil =>
    intro r n
    simp [broadcastAll, chanFold]
  | cons e es ih =>
    intro r n
    have hstep : broadcastAll r (e :: es) =
        broadcastAll (broadcastToChannels r e).1 es := by
      simp [broadcastAll]
    rw [hstep, ih, lookupChan_broadcast]
    cases lookupChan r n <;> simp [chanFold]

/-- C1: for every channel subscription of capacity `K ≥ 1` (registered
with an empty buffer), broadcasting `N ≥ K` records with no interim
consumption leaves the queue holding exactly the last `K` broadcast
records in their original broadcast order; each earlier record was
evicted one at a time as the oldest. -/
theorem drop_oldest_law (r : Registry) (name : String) (K : Nat)
    (es : List LogEntry)
    (hreg : lookupChan r name = some { capacity := K, queue := [] })
    (hK : 1 ≤ K) (hN : K ≤ es.length) :
    lookupChan (broadcastAll r es) name =
      some { capacity := K, queue := es.drop (es.length - K) } := by
  rw [lookupChan_broadcastAll es r name, hreg]
  simp only [Option.map_some']
  rw [chanFold_queue name K hK es [] (by simp)]
  simp

/-- Witness for C1: the spec's own example, capacity 3 and records
`m1..m7`, yields exactly `[m5, m6, m7]`. -/
theorem drop_oldest_law_witness :
    lookupChan
      (broadcastAll [("c", { capacity := 3, queue := [] })]
        [⟨1, LevelInfo, [], [], []⟩, ⟨2, LevelInfo, [], [], []⟩,
         ⟨3, LevelInfo, [], [], []⟩, ⟨4, LevelInfo, [], [], []⟩,
         ⟨5, LevelInfo, [], [], []⟩, ⟨6, LevelInfo, [], [], []⟩,
         ⟨7, LevelInfo, [], [], []⟩]) "c"
      = some { capacity := 3,
               queue := [⟨5, LevelInfo, [], [], []⟩, ⟨6, LevelInfo, [], [], []⟩,
                         ⟨7, LevelInfo, [], [], []⟩] } := by
  have h := drop_oldest_law [("c", { capacity := 3, queue := [] })] "c" 3
    [⟨1, LevelInfo, [], [], []⟩, ⟨2, LevelInfo, [], [], []⟩,
     ⟨3, LevelInfo, [], [], []⟩, ⟨4, LevelInfo, [], [], []⟩,
     ⟨5, LevelInfo, [], [], []⟩, ⟨6, LevelInfo, [], [], []⟩,
     ⟨7, LevelInfo, [], [], []⟩] (by rfl) (by decide) (by decide)
  simpa using h

/-- C2 counterexample: with two configured targets (a failing console and
an accepting custom writer), one write through the multi-writer returns
an error even though not every target failed, and the custom target
receives nothing — `io.MultiWriter` aborts at the first failing target,
contradicting the claimed best-effort broadcast. -/
theorem multiwriter_abort_cex :
    (SetOutput (initState { accepts := false, received := [] })
        (some { accepts := true, received := [] })).multiWriter
      = [{ accepts := false, received := [] }, { accepts := true, received := [] }]
    ∧ multiWrite
        [{ accepts := false, received := [] }, { accepts := true, received := [] }]
        "x".toList
      = ([{ accepts := false, received := [] }, { accepts := true, received := [] }],
          0, some "write error")
    ∧ ({ accepts := true, received := [] } : GoWriter).accepts = true := by
  refine ⟨rfl, ?_, rfl⟩
  rfl

/-- C2 (amended): a multi-writer write visits the targets in order and
stops at the first failing one, returning its error; targets before the
failure receive the full bytes, targets after it receive nothing for that
call, and the overall write succeeds only if every target accepted. -/
theorem multiwriter_first_error_stops
    (ws ws1 ws2 : List GoWriter) (f : GoWriter) (p : List Char) :
    ((multiWrite ws p).2.2 = none ↔ ∀ w ∈ ws, w.accepts = true)
    ∧ (f.accepts = false → (∀ w ∈ ws1, w.accepts = true) →
        multiWrite (ws1 ++ f :: ws2) p =
          (ws1.map (fun w => { w with received := w.received ++ [p] })
            ++ f :: ws2, 0, some "write error")) := by
  constructor
  · induction ws with
    | nil => simp [multiWrite]
    | cons w ws ih =>
      by_cases hw : w.accepts
      · simp [multiWrite, writerWrite, hw, ih]
      · simp [multiWrite, writerWrite, hw]
  · induction ws1 with
    | nil =>
      intro hf _
      simp [multiWrite, writerWrite, hf]
    | cons w ws1 ih =>
      intro hf hall
      have hw : w.accepts = true := hall w (by simp)
      have htail : ∀ x ∈ ws1, x.accepts = true := fun x hx => hall x (by simp [hx])
      simp [multiWrite, writerWrite, hw, ih hf htail]

/-- Witness for the amended C2: three targets where the middle one fails:
the first receives the bytes, the failure is returned, the third receives
nothing. -/
theorem multiwriter_first_error_stops_witness :
    multiWrite
      [{ accepts := true, received := [] }, { accepts := false, received := [] },
       { accepts := true, received := [] }] "x".toList
    = ([{ accepts := true, received := ["x".toList] },
        { accepts := false, received := [] },
        { accepts := true, received := [] }], 0, some "write error") := by
  have h := (multiwriter_first_error_stops
    [{ accepts := true, received := [] }]
    [{ accepts := true, received := [] }]
    [{ accepts := true, received := [] }]
    { accepts := false, received := [] } "x".toList).2 (by rfl) (by decide)
  simpa using h

/-- Configuration traces that never install a custom writer keep both the
custom writer and the mirror pipe absent. -/
theorem run_no_custom (ops : List Op) :
    ∀ s : LoggerState, s.customWriter = none → s.activeReader = none →
      (∀ o ∈ ops, setsCustom o = false) →
      (run s ops).customWriter = none ∧ (run s ops).activeReader = none := by
  induction ops with
  | nil =>
    intro s h1 h2 _
    exact ⟨h1, h2⟩
  | cons o ops ih =>
    intro s h1 h2 hall
    have ho := hall o (by simp)
    have htail : ∀ x ∈ ops, setsCustom x = false := fun x hx => hall x (by simp [hx])
    rw [run]
    have hpres : (applyOp s o).customWriter = none ∧ (applyOp s o).activeReader = none := by
      cases o with
      | setProductName n => simp [applyOp, SetProductName, h1, h2]
      | setOutput w =>
        cases w with
        | none => simp [applyOp, SetOutput, updateMultiWriter, h2]
        | some w => simp [setsCustom] at ho
      | getReaderCopy fresh => simp [applyOp, GetReaderCopy, h1, h2]
      | removeReaderCopy => simp [applyOp, RemoveReaderCopy, h2, h1]
      | setChannelBufferSize n => simp [applyOp, h1, h2]
      | removeLogChannel name => simp [applyOp, h1, h2]
      | emitDebug i => simp [applyOp, Debug, emit, h1, h2]
      | emitInfo i => simp [applyOp, Info, emit, h1, h2]
      | emitWarn i => simp [applyOp, Warn, emit, h1, h2]
      | emitError i => simp [applyOp, Error, emit, h1, h2]
    exact ih (applyOp s o) hpres.1 hpres.2 htail

/-- C3: `GetReaderCopy` while no custom writer is configured — in
particular after any call sequence that never passes a non-nil writer to
`SetOutput` — returns the configuration error and installs no mirror;
with a custom writer configured it returns the fresh readable pipe and no
error. -/
theorem mirror_requires_custom_sink :
    (∀ (s : LoggerState) (fresh : GoWriter), s.customWriter = none →
        GetReaderCopy s fresh = (Except.error noWriterMsg, s))
    ∧ (∀ (s : LoggerState) (fresh w : GoWriter), s.customWriter = some w →
        (GetReaderCopy s fresh).1 = Except.ok fresh
        ∧ (GetReaderCopy s fresh).2.activeReader = some fresh)
    ∧ (∀ (console fresh : GoWriter) (ops : List Op),
        (∀ o ∈ ops, setsCustom o = false) →
        (GetReaderCopy (run (initState console) ops) fresh).1
          = Except.error noWriterMsg
        ∧ (run (initState console) ops).activeReader = none) := by
  refine ⟨?_, ?_, ?_⟩
  · intro s fresh h
    simp [GetReaderCopy, h]
  · intro s fresh w h
    simp [GetReaderCopy, h, updateMultiWriter]
  · intro console fresh ops hall
    have h := run_no_custom ops (initState console) rfl rfl hall
    exact ⟨by simp [GetReaderCopy, h.1], h.2⟩

/-- Witness for C3: the error case at the initial state, the success case
after a `SetOutput`, and the error case after a trace that never sets a
custom writer. -/
theorem mirror_requires_custom_sink_witness :
    GetReaderCopy (initState sampleWriter) sampleWriter
      = (Except.error noWriterMsg, initState sampleWriter)
    ∧ (GetReaderCopy (SetOutput (initState sampleWriter) (some sampleWriter))
        sampleWriter).1 = Except.ok sampleWriter
    ∧ (GetReaderCopy
        (run (initState sampleWriter)
          [Op.setProductName "app".toList, Op.removeReaderCopy])
        sampleWriter).1 = Except.error noWriterMsg :=
  ⟨(mirror_requires_custom_sink).1 _ _ rfl,
   ((mirror_requires_custom_sink).2.1 _ _ sampleWriter rfl).1,
   ((mirror_requires_custom_sink).2.2 _ _ _ (by decide)).1⟩

/-- C5: every `LogEntry` built by `Debug`, `Warn`, `Error` or `Fatal`
carries a non-empty stack trace, and every `LogEntry` built by `Info`
carries an empty one. The hypothesis encodes that `debug.Stack()` returns
a non-empty formatted trace. -/
theorem stack_trace_asymmetry (s : LoggerState) (i : EmitInput)
    (h : i.stack ≠ []) :
    (Debug s i).2.entry.StackTrace ≠ []
    ∧ (Warn s i).2.entry.StackTrace ≠ []
    ∧ (Error s i).2.entry.StackTrace ≠ []
    ∧ (Fatal s i).2.entry.StackTrace ≠ []
    ∧ (Info s i).2.entry.StackTrace = [] := by
  simp [Debug, Warn, Error, Fatal, Info, emit, h]

/-- Witness for C5 at a concrete state and emission environment. -/
theorem stack_trace_asymmetry_witness :
    (Debug (initState sampleWriter) sampleInput).2.entry.StackTrace ≠ []
    ∧ (Warn (initState sampleWriter) sampleInput).2.entry.StackTrace ≠ []
    ∧ (Error (initState sampleWriter) sampleInput).2.entry.StackTrace ≠ []
    ∧ (Fatal (initState sampleWriter) sampleInput).2.entry.StackTrace ≠ []
    ∧ (Info (initState sampleWriter) sampleInput).2.entry.StackTrace = [] :=
  stack_trace_asymmetry (initState sampleWriter) sampleInput (by decide)

/-- Call sequences containing no `SetProductName` leave the stored
product name unchanged. -/
theorem run_productName (ops : List Op) :
    ∀ s : LoggerState, (∀ o ∈ ops, isSetProductName o = false) →
      (run s ops).productName = s.productName := by
  induction ops with
  | nil =>
    intro s _
    rfl
  | cons o ops ih =>
    intro s hall
    have ho := hall o (by simp)
    have htail : ∀ x ∈ ops, isSetProductName x = false := fun x hx => hall x (by simp [hx])
    rw [run, ih (applyOp s o) htail]
    cases o with
    | setProductName n => simp [isSetProductName] at ho
    | setOutput w => simp [applyOp, SetOutput, updateMultiWriter]
    | getReaderCopy fresh =>
      cases hc : s.customWriter with
      | none => simp [applyOp, GetReaderCopy, hc]
      | some w => simp [applyOp, GetReaderCopy, hc, updateMultiWriter]
    | removeReaderCopy =>
      cases ha : s.activeReader with
      | none => simp [applyOp, RemoveReaderCopy, ha]
      | some w => simp [applyOp, RemoveReaderCopy, ha, updateMultiWriter]
    | setChannelBufferSize n => simp [applyOp]
    | removeLogChannel name => simp [applyOp]
    | emitDebug i => simp [applyOp, Debug, emit]
    | emitInfo i => simp [applyOp, Info, emit]
    | emitWarn i => simp [applyOp, Warn, emit]
    | emitError i => simp [applyOp, Error, emit]

/-- C10: after `SetProductName n`, `GetPrefix` (modelled as
`GetProductName`) returns exactly `n` and stays `n` across any further
calls that do not set the product name again; initially it is the empty
string; and every emitted record carries the current product name as its
`Prefix` field. -/
theorem product_name_spec :
    (∀ (s : LoggerState) (n : List Char),
        GetProductName (SetProductName s n) = n)
    ∧ (∀ (s : LoggerState) (ops : List Op),
        (∀ o ∈ ops, isSetProductName o = false) →
        GetProductName (run s ops) = GetProductName s)
    ∧ (∀ console : GoWriter, GetProductName (initState console) = [])
    ∧ (∀ (s : LoggerState) (i : EmitInput),
        (Debug s i).2.entry.ProdName = GetProductName s
        ∧ (Info s i).2.entry.ProdName = GetProductName s
        ∧ (Warn s i).2.entry.ProdName = GetProductName s
        ∧ (Error s i).2.entry.ProdName = GetProductName s
        ∧ (Fatal s i).2.entry.ProdName = GetProductName s) := by
  refine ⟨?_, ?_, ?_, ?_⟩
  · intro s n
    rfl
  · intro s ops hall
    exact run_productName ops s hall
  · intro console
    rfl
  · intro s i
    refine ⟨rfl, rfl, rfl, rfl, rfl⟩

/-- Witness for C10: a concrete trace — set the name to `"app"`, emit an
INFO record — after which the stored product name is still `"app"`. -/
theorem product_name_spec_witness :
    GetProductName
      (run (SetProductName (initState sampleWriter) "app".toList)
        [Op.emitInfo sampleInput])
      = "app".toList := by
  rw [(product_name_spec).2.1 _ _ (by decide)]
  exact (product_name_spec).1 _ _

/-- Filtering a name out of the registry makes lookups of that name fail. -/
theorem lookupChan_filter_ne (r : Registry) (n : String) :
    lookupChan (r.filter (fun p => p.1 != n)) n = none := by
  induction r with
  | nil => rfl
  | cons p rest ih =>
    by_cases h : p.1 = n
    · simp [List.filter_cons, h, ih]
    · simp [List.filter_cons, h, lookupChan, ih]

/-- C8: removing a channel name that is not registered is a no-op (the
registry is unchanged and nothing is closed), and removing the same name
twice in a row equals removing it once. -/
theorem unsubscribe_idempotent :
    (∀ (r : Registry) (name : String), lookupChan r name = none →
        RemoveLogChannel r name = (r, false))
    ∧ (∀ (r : Registry) (name : String),
        (RemoveLogChannel (RemoveLogChannel r name).1 name).1
          = (RemoveLogChannel r name).1) := by
  constructor
  · intro r name h
    simp [RemoveLogChannel, h]
  · intro r name
    cases hl : lookupChan r name with
    | none => simp [RemoveLogChannel, hl]
    | some ch => simp [RemoveLogChannel, hl, lookupChan_filter_ne]

/-- Witness for C8 on a concrete registry and an unregistered name. -/
theorem unsubscribe_idempotent_witness :
    RemoveLogChannel [("a", { capacity := 1, queue := [] })] "x"
      = ([("a", { capacity := 1, queue := [] })], false)
    ∧ (RemoveLogChannel
        (RemoveLogChannel [("a", { capacity := 1, queue := [] })] "x").1 "x").1
      = (RemoveLogChannel [("a", { capacity := 1, queue := [] })] "x").1 :=
  ⟨(unsubscribe_idempotent).1 _ _ (by decide), (unsubscribe_idempotent).2 _ _⟩

/-- C6 counterexample: subscribing a fresh name with requested capacity 0
creates and registers a zero-capacity queue, not one of the default
capacity 100; and requested capacity −1 panics (`make` with a negative
buffer) instead of falling back. The `≤ 0` fallback exists only in
`SetChannelBufferSize`. -/
theorem subscribe_capacity_fallback_cex :
    GetLogChannelWithConfig [] "c" { BufferSize := 0, Timeout := 100000000 }
      = Except.ok ([("c", { capacity := 0, queue := [] })],
          { capacity := 0, queue := [] })
    ∧ GetLogChannelWithConfig [] "c" { BufferSize := -1, Timeout := 0 }
      = Except.error "makechan: size out of range"
    ∧ (0 : Nat) ≠ defaultBufferSize.toNat := by
  refine ⟨rfl, rfl, by decide⟩

/-- C6 (amended): `GetLogChannelWithConfig` applies no fallback for a
fresh name: it registers a queue of exactly the requested capacity when
that capacity is non-negative (capacity 0 gives an unbuffered queue), and
panics when it is negative. -/
theorem subscribe_capacity_exact (r : Registry) (name : String)
    (cfg : LogChannelConfig) (h : lookupChan r name = none) :
    (0 ≤ cfg.BufferSize →
        GetLogChannelWithConfig r name cfg
          = Except.ok ((name, { capacity := cfg.BufferSize.toNat, queue := [] }) :: r,
              { capacity := cfg.BufferSize.toNat, queue := [] }))
    ∧ (cfg.BufferSize < 0 →
        GetLogChannelWithConfig r name cfg
          = Except.error "makechan: size out of range") := by
  constructor
  · intro h0
    have hn : ¬ cfg.BufferSize < 0 := not_lt.mpr h0
    simp [GetLogChannelWithConfig, h, makeChan, hn]
  · intro h0
    simp [GetLogChannelWithConfig, h, makeChan, h0]

/-- Witness for the amended C6 at requested capacity 5. -/
theorem subscribe_capacity_exact_witness :
    GetLogChannelWithConfig [] "c" { BufferSize := 5, Timeout := 0 }
      = Except.ok ([("c", { capacity := 5, queue := [] })],
          { capacity := 5, queue := [] }) :=
  (subscribe_capacity_exact [] "c" { BufferSize := 5, Timeout := 0 } rfl).1
    (by decide)

/-- C7 counterexample: an emission whose rendered message ends in a
newline produces a `LogEntry` whose `Message` still ends in that newline
— the strip applies only to the written text line, not to the record. -/
theorem record_message_newline_cex :
    (Info (initState sampleWriter)
        { now := 0, date := "2024/01/01".toList, timeText := "12:00:00".toList,
          msg := "hi".toList ++ [nlChar], stack := [] }).2.entry.Message
      = "hi".toList ++ [nlChar]
    ∧ ("hi".toList ++ [nlChar]).getLast? = some nlChar := by
  refine ⟨rfl, by decide⟩

/-- C7 (amended): the `Message` field of the record broadcast to the
channels is the rendered string verbatim — it may retain a trailing
newline; only the written text line strips one. A subscribed channel with
room receives exactly that record. -/
theorem record_message_verbatim (c : GoWriter) (name : String) (K : Nat)
    (i : EmitInput) (hK : 1 ≤ K) :
    lookupChan
      ((Info { initState c with
          logChannels := [(name, { capacity := K, queue := [] })] } i).1.logChannels)
      name
      = some { capacity := K,
               queue := [(Info { initState c with
                  logChannels := [(name, { capacity := K, queue := [] })] } i).2.entry] }
    ∧ (Info { initState c with
        logChannels := [(name, { capacity := K, queue := [] })] } i).2.entry.Message
      = i.msg := by
  constructor
  · have h0 : (0 : Nat) < K := hK
    simp [Info, emit, broadcastToChannels, broadcastStep, chanTrySend, h0, lookupChan]
  · rfl

/-- Witness for the amended C7: a concrete newline-terminated message is
stored verbatim in a capacity-2 subscription. -/
theorem record_message_verbatim_witness :
    lookupChan
      ((Info { initState sampleWriter with
          logChannels := [("c", { capacity := 2, queue := [] })] } sampleInput).1.logChannels)
      "c"
      = some { capacity := 2,
               queue := [(Info { initState sampleWriter with
                  logChannels := [("c", { capacity := 2, queue := [] })] } sampleInput).2.entry] }
    ∧ (Info { initState sampleWriter with
        logChannels := [("c", { capacity := 2, queue := [] })] } sampleInput).2.entry.Message
      = sampleInput.msg :=
  record_message_verbatim sampleWriter "c" 2 sampleInput (by decide)

/-- C4 counterexample: a DEBUG emission captures a non-empty stack into
the record but writes only the formatted text line — the stack text is
not appended, contradicting the claim for DEBUG (and likewise WARN). -/
theorem write_stack_levels_cex :
    (Debug (initState sampleWriter) sampleInput).2.written
      = "2024/01/01 12:00:00 [DEBUG] hi".toList ++ [nlChar]
    ∧ "2024/01/01 12:00:00 [DEBUG] hi".toList ++ [nlChar]
      ≠ ("2024/01/01 12:00:00 [DEBUG] hi".toList ++ [nlChar])
          ++ ("goroutine 1:".toList ++ [nlChar])
    ∧ sampleInput.stack = "goroutine 1:".toList ++ [nlChar] := by
  refine ⟨by decide, by decide, rfl⟩

/-- C4 (amended): only ERROR and FATAL write the formatted line followed
immediately (with no level tag) by the raw stack text; DEBUG and WARN
write just the formatted line even though the record carries a stack; for
INFO no stack text is written. The hypotheses pin the modelled domain: a
newline-terminated stack capture and directive-free texts. -/
theorem write_stack_only_error_fatal (s : LoggerState) (i : EmitInput)
    (hs : i.stack.getLast? = some nlChar)
    (hm : percentFree i.msg = true) (hp : percentFree i.stack = true) :
    (Debug s i).2.written = lineOut s i LevelDebug
    ∧ (Warn s i).2.written = lineOut s i LevelWarn
    ∧ (Info s i).2.written = lineOut s i LevelInfo
    ∧ (Error s i).2.written = lineOut s i LevelError ++ i.stack
    ∧ (Fatal s i).2.written = lineOut s i LevelFatal ++ i.stack := by
  have hne : i.stack ≠ [] := by
    intro h0
    rw [h0] at hs
    simp at hs
  have hnl : ∀ X : List Char, (X ++ [nlChar]).getLast? = some nlChar := by
    intro X
    rw [List.getLast?_append_of_ne_nil X (by simp)]
    rfl
  have hst : ∀ X : List Char, (X ++ i.stack).getLast? = some nlChar := by
    intro X
    rw [List.getLast?_append_of_ne_nil X hne, hs]
  refine ⟨?_, ?_, ?_, ?_, ?_⟩
  · simp only [Debug, emit, lineOut, logOutput, List.append_nil]
  · simp only [Warn, emit, lineOut, logOutput, List.append_nil]
  · simp only [Info, emit, lineOut, logOutput, List.append_nil]
  · simp only [Error, emit, lineOut, logOutput, List.append_nil]
    rw [hst, hnl]
    simp [List.append_assoc]
  · simp only [Fatal, emit, lineOut, logOutput, List.append_nil]
    rw [hst, hnl]
    simp [List.append_assoc]

/-- Witness for the amended C4 at a concrete state and environment. -/
theorem write_stack_only_error_fatal_witness :
    (Debug (initState sampleWriter) sampleInput).2.written
      = lineOut (initState sampleWriter) sampleInput LevelDebug
    ∧ (Warn (initState sampleWriter) sampleInput).2.written
      = lineOut (initState sampleWriter) sampleInput LevelWarn
    ∧ (Info (initState sampleWriter) sampleInput).2.written
      = lineOut (initState sampleWriter) sampleInput LevelInfo
    ∧ (Error (initState sampleWriter) sampleInput).2.written
      = lineOut (initState sampleWriter) sampleInput LevelError
          ++ sampleInput.stack
    ∧ (Fatal (initState sampleWriter) sampleInput).2.written
      = lineOut (initState sampleWriter) sampleInput LevelFatal
          ++ sampleInput.stack :=
  write_stack_only_error_fatal (initState sampleWriter) sampleInput
    (by decide) (by decide) (by decide)

end GoLogger
